import Mathlib

/-!
Verification of the TeckoChecker polling/scheduling engine.

This file gives a shallow embedding of the engine's data model and
operations, translated from the repository sources:

* `app/models.py` — the `JobBatch` and `PollingJob` records and their
  derived predicates (`is_terminal`, `is_failed`, `all_batches_terminal`,
  `completed_batches`, `failed_batches`);
* `app/services/scheduler.py` — `JobScheduler.get_jobs_to_check`,
  `schedule_next_check`, `update_job_status`, `cleanup_old_jobs`;
* `app/services/polling.py` — `PollingService._process_single_job`,
  `_check_single_batch`, `_trigger_keboola_with_results`,
  `_reschedule_job`, `_handle_job_error`;
* `app/integrations/openai_client.py` — the retry loop of
  `OpenAIBatchClient.check_batch_status`;
* `app/integrations/keboola_client.py` — the retry loop of
  `KeboolaClient.trigger_job`.

The database is modelled as a list of job rows; timestamps are integers
(seconds); outbound network calls are modelled by an environment function
giving each call's outcome.  Nullable columns are `Option` values.
-/

namespace TeckoChecker

/-- Timestamps in seconds (`datetime` columns in the source). -/
abbrev Time := Int

/-! ## Data model (`app/models.py`) -/

/-- One row of `job_batches` (`JobBatch` in `app/models.py`). -/
structure JobBatch where
  id : Nat
  job_id : Nat
  batch_id : String
  status : String
  created_at : Time
  completed_at : Option Time
deriving Repr, DecidableEq

/-- `JobBatch.is_terminal`: status is one of
completed, failed, cancelled, expired. -/
def isTerminalStatus (s : String) : Bool :=
  s == "completed" || s == "failed" || s == "cancelled" || s == "expired"

/-- `JobBatch.is_completed`: status equals completed. -/
def isCompletedStatus (s : String) : Bool :=
  s == "completed"

/-- `JobBatch.is_failed`: status is one of failed, cancelled, expired. -/
def isFailedStatus (s : String) : Bool :=
  s == "failed" || s == "cancelled" || s == "expired"

/-- One row of `polling_jobs` (`PollingJob` in `app/models.py`), together
with its eagerly loaded `batches` relationship. -/
structure PollingJob where
  id : Nat
  name : String
  openai_secret_id : Option Nat
  keboola_secret_id : Option Nat
  keboola_stack_url : String
  keboola_component_id : String
  keboola_configuration_id : String
  poll_interval_seconds : Int
  status : String
  last_check_at : Option Time
  next_check_at : Option Time
  created_at : Time
  completed_at : Option Time
  batches : List JobBatch
deriving Repr, DecidableEq

/-- `PollingJob.all_batches_terminal`: `False` when the batch list is
empty, otherwise all batches terminal. -/
def allBatchesTerminal (j : PollingJob) : Bool :=
  if j.batches.isEmpty then false
  else j.batches.all (fun b => isTerminalStatus b.status)

/-- `PollingJob.completed_batches`. -/
def completedBatches (j : PollingJob) : List JobBatch :=
  j.batches.filter (fun b => isCompletedStatus b.status)

/-- `PollingJob.failed_batches`. -/
def failedBatches (j : PollingJob) : List JobBatch :=
  j.batches.filter (fun b => isFailedStatus b.status)

/-! ## Job scheduler (`app/services/scheduler.py`) -/

/-- Error kinds raised by `JobScheduler` methods (the source raises
`ValueError` with a "not found" message or an "Invalid ..." message;
the design taxonomy names these NotFound and Validation). -/
inductive SchedulerError where
  | notFound
  | validation
deriving Repr, DecidableEq

/-- The `WHERE` clause of `get_jobs_to_check`: status is active and
`next_check_at` is null or not after `now`. -/
def jobDue (now : Time) (j : PollingJob) : Bool :=
  j.status == "active" &&
    (match j.next_check_at with
     | none => true
     | some t => decide (t ≤ now))

/-- The `ORDER BY next_check_at ASC NULLS FIRST` key comparison. -/
def nextCheckKeyLe (a b : Option Time) : Bool :=
  match a, b with
  | none, _ => true
  | some _, none => false
  | some x, some y => decide (x ≤ y)

/-- Row ordering used by `get_jobs_to_check`. -/
def nextCheckLe (j1 j2 : PollingJob) : Prop :=
  nextCheckKeyLe j1.next_check_at j2.next_check_at = true

instance : DecidableRel nextCheckLe := fun a b =>
  inferInstanceAs (Decidable (nextCheckKeyLe a.next_check_at b.next_check_at = true))

instance : IsTotal PollingJob nextCheckLe := by
  constructor
  intro a b
  unfold nextCheckLe nextCheckKeyLe
  rcases a.next_check_at with _ | x <;> rcases b.next_check_at with _ | y <;>
    simp [decide_eq_true_eq]
  exact Int.le_total x y

instance : IsTrans PollingJob nextCheckLe := by
  constructor
  intro a b c h1 h2
  unfold nextCheckLe nextCheckKeyLe at h1 h2 ⊢
  rcases hA : a.next_check_at with _ | x <;> rcases hB : b.next_check_at with _ | y <;>
    rcases hC : c.next_check_at with _ | z <;> simp_all [decide_eq_true_eq]
  exact le_trans h1 h2

/-- `JobScheduler.get_jobs_to_check(limit)`: filter to active, due jobs,
order by `next_check_at` ascending with nulls first, and apply the limit.
In the source the limit is applied only when truthy (`if limit:`), so a
limit of `0` (or `None`) leaves the result uncapped. -/
def getJobsToCheck (db : List PollingJob) (limit : Option Nat) (now : Time) :
    List PollingJob :=
  let sorted := (db.filter (jobDue now)).insertionSort nextCheckLe
  match limit with
  | some l => if l != 0 then sorted.take l else sorted
  | none => sorted

/-- The interval resolution of `schedule_next_check`: the override is
used only when truthy (Python
`poll_interval_seconds if poll_interval_seconds else job.poll_interval_seconds`),
so an override of `0` or `None` falls back to the job's configured
interval. -/
def resolvedInterval (poll_interval_seconds : Option Int) (job : PollingJob) : Int :=
  match poll_interval_seconds with
  | some v => if v != 0 then v else job.poll_interval_seconds
  | none => job.poll_interval_seconds

/-- `JobScheduler.schedule_next_check(job_id, poll_interval_seconds)`:
NotFound when the job id is unknown, Validation when the resolved
interval is `≤ 0`, otherwise stamp `last_check_at = now` and
`next_check_at = now + interval` and return the new `next_check_at`. -/
def scheduleNextCheck (db : List PollingJob) (job_id : Nat)
    (poll_interval_seconds : Option Int) (now : Time) :
    Except SchedulerError (List PollingJob × Time) :=
  match db.find? (fun j => j.id == job_id) with
  | none => .error .notFound
  | some job =>
    let interval := resolvedInterval poll_interval_seconds job
    if interval ≤ 0 then .error .validation
    else
      let next := now + interval
      .ok
        (db.map (fun j =>
          if j.id == job_id then
            { j with last_check_at := some now, next_check_at := some next }
          else j),
         next)

/-- The `valid_statuses` set of `JobScheduler.update_job_status`
(note: it does not contain `completed_with_failures`). -/
def validStatuses : List String :=
  ["active", "paused", "completed", "failed"]

/-- `JobScheduler.update_job_status(job_id, status, completed_at)`:
reject a status outside `valid_statuses`; an explicitly passed
`completed_at` is written unconditionally (`if completed_at:`); then, for
status completed or failed with `completed_at` still null, stamp now. -/
def updateJobStatus (db : List PollingJob) (job_id : Nat) (status : String)
    (completed_at : Option Time) (now : Time) :
    Except SchedulerError (List PollingJob) :=
  if !(validStatuses.contains status) then .error .validation
  else
    match db.find? (fun j => j.id == job_id) with
    | none => .error .notFound
    | some _ =>
      .ok (db.map (fun j =>
        if j.id == job_id then
          let j1 := { j with status := status }
          let j2 :=
            match completed_at with
            | some t => { j1 with completed_at := some t }
            | none => j1
          if (status == "completed" || status == "failed") &&
              j2.completed_at == none then
            { j2 with completed_at := some now }
          else j2
        else j))

/-- The purge condition of `JobScheduler.cleanup_old_jobs`: status in
`['completed', 'failed']` and `completed_at < cutoff` (a SQL comparison,
false for a null `completed_at`). -/
def purgedByCleanup (cutoff : Time) (j : PollingJob) : Bool :=
  (j.status == "completed" || j.status == "failed") &&
    (match j.completed_at with
     | some t => decide (t < cutoff)
     | none => false)

/-- `JobScheduler.cleanup_old_jobs(days_old)`: bulk-delete the rows
matching `purgedByCleanup` with cutoff `now - days_old` days and return
the remaining rows with the deleted count. -/
def cleanupOldJobs (db : List PollingJob) (days_old : Int) (now : Time) :
    List PollingJob × Nat :=
  let cutoff := now - days_old * 86400
  (db.filter (fun j => !(purgedByCleanup cutoff j)),
   (db.filter (purgedByCleanup cutoff)).length)

/-! ## Polling engine (`app/services/polling.py`)

A status-check environment `env : String → Option String` gives, for a
batch id, the status returned by `OpenAIBatchClient.check_batch_status`
(after its own retries), or `none` when the check raised — in which case
`_check_single_batch` logs the error and leaves the batch unchanged.
The trigger outcome is a `Bool`: `true` when
`KeboolaClient.trigger_job` succeeded, `false` when it raised. -/

/-- `PollingService._check_single_batch`: on a successful check, write the
new status only if it differs from the stored one, stamping
`completed_at` when the new status is terminal; on a failed check leave
the batch unchanged. -/
def checkSingleBatch (now : Time) (env : String → Option String)
    (b : JobBatch) : JobBatch :=
  match env b.batch_id with
  | none => b
  | some new_status =>
    if new_status != b.status then
      let b1 := { b with status := new_status }
      if isTerminalStatus new_status then { b1 with completed_at := some now }
      else b1
    else b

/-- The per-iteration batch updates of `_process_single_job`: only
non-terminal batches are checked; terminal batches are untouched. -/
def updatedBatches (now : Time) (env : String → Option String)
    (batches : List JobBatch) : List JobBatch :=
  batches.map (fun b =>
    if isTerminalStatus b.status then b else checkSingleBatch now env b)

/-- `PollingService._reschedule_job`: calls
`JobScheduler.schedule_next_check(job_id)` with no override and swallows
its errors, so a non-positive configured interval leaves the job
unchanged. -/
def rescheduleJob (now : Time) (j : PollingJob) : PollingJob :=
  if j.poll_interval_seconds ≤ 0 then j
  else
    { j with
      last_check_at := some now,
      next_check_at := some (now + j.poll_interval_seconds) }

/-- The job state written when `_trigger_keboola_with_results` catches a
trigger failure: `_handle_job_error` reschedules the job, then the job is
marked failed with `completed_at` stamped. -/
def markTriggerFailed (now : Time) (j : PollingJob) : PollingJob :=
  { rescheduleJob now j with status := "failed", completed_at := some now }

/-- `PollingService._process_single_job` for one job, returning the
updated job row and the number of Keboola trigger invocations made.

Faithful to the source control flow:
* if no batch is non-terminal: when `all_batches_terminal` and the job is
  active, call `_trigger_keboola_with_results` and return — the job's
  status is not changed on trigger success (the recovery path has no
  finalization step);
* otherwise check every non-terminal batch, then re-read the job; if all
  batches are now terminal, call `_trigger_keboola_with_results` (which
  swallows its own failure after marking the job failed) and then
  unconditionally set status to completed / completed_with_failures and
  stamp `completed_at`; else reschedule. -/
def processSingleJob (now : Time) (env : String → Option String)
    (trigOk : Bool) (j : PollingJob) : PollingJob × Nat :=
  if (j.batches.filter (fun b => !(isTerminalStatus b.status))).isEmpty then
    if allBatchesTerminal j && j.status == "active" then
      if trigOk then (j, 1)
      else (markTriggerFailed now j, 1)
    else (j, 0)
  else
    let j2 : PollingJob := { j with batches := updatedBatches now env j.batches }
    if allBatchesTerminal j2 then
      let j3 := if trigOk then j2 else markTriggerFailed now j2
      ({ j3 with
          status :=
            if (failedBatches j2).isEmpty then "completed"
            else "completed_with_failures",
          completed_at := some now }, 1)
    else
      (rescheduleJob now j2, 0)

/-- One polling-loop iteration restricted to a single job: the job is
processed exactly when `get_jobs_to_check` selects it (active and due). -/
def pollIterationOnJob (now : Time) (env : String → Option String)
    (trigOk : Bool) (j : PollingJob) : PollingJob × Nat :=
  if jobDue now j then processSingleJob now env trigOk j else (j, 0)

/-! ## Retry loops of the integration clients -/

/-- Outcome of one attempt of `OpenAIBatchClient.check_batch_status`:
a status result, or one of the exception families caught by the source's
except clauses (`RateLimitError`, `APIConnectionError`, `APIError` with
an optional `status_code`, and the catch-all `OpenAIError`). -/
inductive OpenAIOutcome where
  | success (status : String)
  | rateLimitError
  | apiConnectionError
  | apiError (status_code : Option Int)
  | openAIError
deriving Repr, DecidableEq

/-- Outcome of one attempt of `KeboolaClient.trigger_job`: a job id, or
one of the exception families caught by the source
(`aiohttp.ClientResponseError` with its HTTP status,
`aiohttp.ClientConnectionError`, `aiohttp.ClientError`,
`asyncio.TimeoutError`). -/
inductive KeboolaOutcome where
  | success (job_id : String)
  | clientResponseError (status : Int)
  | clientConnectionError
  | clientError
  | timeoutError
deriving Repr, DecidableEq

/-- How one attempt is dispatched by a retry loop: return, raise
immediately, or record the exception and retry. -/
inductive AttemptStep (ε α : Type) where
  | ok (v : α)
  | permanent (e : ε)
  | transient (e : ε)
deriving Repr, DecidableEq

/-- The except-clause structure of `check_batch_status`: an `APIError`
with a client-side 4xx status other than 429 is re-raised immediately;
every other caught exception is recorded and retried. -/
def classifyOpenAI : OpenAIOutcome → AttemptStep OpenAIOutcome String
  | .success s => .ok s
  | .rateLimitError => .transient .rateLimitError
  | .apiConnectionError => .transient .apiConnectionError
  | .apiError sc =>
    match sc with
    | some c =>
      if 400 ≤ c && c < 500 && c != 429 then .permanent (.apiError (some c))
      else .transient (.apiError (some c))
    | none => .transient (.apiError none)
  | .openAIError => .transient .openAIError

/-- The except-clause structure of `trigger_job`: a
`ClientResponseError` with a client-side 4xx status other than 429 is
re-raised immediately; every other caught exception is recorded and
retried. -/
def classifyKeboola : KeboolaOutcome → AttemptStep KeboolaOutcome String
  | .success j => .ok j
  | .clientResponseError s =>
    if 400 ≤ s && s < 500 && s != 429 then .permanent (.clientResponseError s)
    else .transient (.clientResponseError s)
  | .clientConnectionError => .transient .clientConnectionError
  | .clientError => .transient .clientError
  | .timeoutError => .transient .timeoutError

deriving instance DecidableEq for Except

/-- Result of running a client call with retries: the returned value or
the raised exception, the number of attempts made, and the sleeps
performed between attempts (in order). -/
structure RetryTrace (ε α : Type) where
  result : Except ε α
  attempts : Nat
  sleeps : List Int
deriving Repr, DecidableEq

/-- Both clients' retry constants: `MAX_RETRIES = 3`. -/
def MAX_RETRIES : Nat := 3

/-- Both clients' retry constants: `INITIAL_RETRY_DELAY = 1`. -/
def INITIAL_RETRY_DELAY : Int := 1

/-- Both clients' retry constants: `MAX_RETRY_DELAY = 60`
(`RETRY_MULTIPLIER = 2`). -/
def MAX_RETRY_DELAY : Int := 60

/-- The `for attempt in range(MAX_RETRIES)` loop shared in shape by both
clients, with `remaining` attempts left: a success or a permanent error
returns at once; a transient error is recorded and, unless this was the
last attempt, the loop sleeps `delay` and doubles it capped at 60; when
attempts are exhausted the last recorded error is raised (`fallback`
models the dead `else` branch of the final raise). -/
def retryGo (step : Nat → AttemptStep ε α) (fallback : ε) :
    Nat → Nat → Int → List Int → Option ε → RetryTrace ε α
  | attempt, 0, _, sleeps, last =>
    ⟨.error (last.getD fallback), attempt, sleeps.reverse⟩
  | attempt, remaining + 1, delay, sleeps, _ =>
    match step attempt with
    | .ok v => ⟨.ok v, attempt + 1, sleeps.reverse⟩
    | .permanent e => ⟨.error e, attempt + 1, sleeps.reverse⟩
    | .transient e =>
      if remaining == 0 then
        retryGo step fallback (attempt + 1) remaining delay sleeps (some e)
      else
        retryGo step fallback (attempt + 1) remaining
          (min (delay * 2) MAX_RETRY_DELAY) (delay :: sleeps) (some e)

/-- The retry loop of `OpenAIBatchClient.check_batch_status` over a
sequence of attempt outcomes (the dead no-recorded-error fallback raises
`OpenAIError`, as in the source). -/
def checkBatchStatusRun (oc : Nat → OpenAIOutcome) :
    RetryTrace OpenAIOutcome String :=
  retryGo (fun i => classifyOpenAI (oc i)) .openAIError
    0 MAX_RETRIES INITIAL_RETRY_DELAY [] none

/-- The retry loop of `KeboolaClient.trigger_job` over a sequence of
attempt outcomes (the dead no-recorded-error fallback raises a bare
client exception). -/
def triggerJobRun (kc : Nat → KeboolaOutcome) :
    RetryTrace KeboolaOutcome String :=
  retryGo (fun i => classifyKeboola (kc i)) .clientError
    0 MAX_RETRIES INITIAL_RETRY_DELAY [] none

/-- An OpenAI attempt outcome that the loop retries. -/
def isTransientOpenAI (o : OpenAIOutcome) : Bool :=
  match classifyOpenAI o with
  | .transient _ => true
  | _ => false

/-- An OpenAI attempt outcome that aborts the loop at once
(client-side 4xx other than 429). -/
def isPermanentOpenAI (o : OpenAIOutcome) : Bool :=
  match classifyOpenAI o with
  | .permanent _ => true
  | _ => false

/-- A Keboola attempt outcome that the loop retries. -/
def isTransientKeboola (o : KeboolaOutcome) : Bool :=
  match classifyKeboola o with
  | .transient _ => true
  | _ => false

/-- A Keboola attempt outcome that aborts the loop at once
(client-side 4xx other than 429). -/
def isPermanentKeboola (o : KeboolaOutcome) : Bool :=
  match classifyKeboola o with
  | .permanent _ => true
  | _ => false

lemma classifyOpenAI_of_transient (o : OpenAIOutcome)
    (h : isTransientOpenAI o = true) : classifyOpenAI o = .transient o := by
  cases o with
  | apiError sc =>
    cases sc with
    | none => rfl
    | some c =>
      by_cases hc : (400 ≤ c && c < 500 && c != 429) = true <;>
        simp_all [isTransientOpenAI, classifyOpenAI]
  | _ => first | rfl | simp_all [isTransientOpenAI, classifyOpenAI]

lemma classifyOpenAI_of_permanent (o : OpenAIOutcome)
    (h : isPermanentOpenAI o = true) : classifyOpenAI o = .permanent o := by
  cases o with
  | apiError sc =>
    cases sc with
    | none => simp_all [isPermanentOpenAI, classifyOpenAI]
    | some c =>
      by_cases hc : (400 ≤ c && c < 500 && c != 429) = true <;>
        simp_all [isPermanentOpenAI, classifyOpenAI]
  | _ => simp_all [isPermanentOpenAI, classifyOpenAI]

lemma classifyKeboola_of_transient (o : KeboolaOutcome)
    (h : isTransientKeboola o = true) : classifyKeboola o = .transient o := by
  cases o with
  | clientResponseError c =>
    by_cases hc : (400 ≤ c && c < 500 && c != 429) = true <;>
      simp_all [isTransientKeboola, classifyKeboola]
  | _ => first | rfl | simp_all [isTransientKeboola, classifyKeboola]

lemma classifyKeboola_of_permanent (o : KeboolaOutcome)
    (h : isPermanentKeboola o = true) : classifyKeboola o = .permanent o := by
  cases o with
  | clientResponseError c =>
    by_cases hc : (400 ≤ c && c < 500 && c != 429) = true <;>
      simp_all [isPermanentKeboola, classifyKeboola]
  | _ => simp_all [isPermanentKeboola, classifyKeboola]

/-- Full unfolding of the OpenAI retry loop over its (at most three)
attempts. -/
lemma checkBatchStatusRun_eq (oc : Nat → OpenAIOutcome) :
    checkBatchStatusRun oc =
      match classifyOpenAI (oc 0) with
      | .ok v => ⟨.ok v, 1, []⟩
      | .permanent e => ⟨.error e, 1, []⟩
      | .transient _ =>
        match classifyOpenAI (oc 1) with
        | .ok v => ⟨.ok v, 2, [1]⟩
        | .permanent e => ⟨.error e, 2, [1]⟩
        | .transient _ =>
          match classifyOpenAI (oc 2) with
          | .ok v => ⟨.ok v, 3, [1, 2]⟩
          | .permanent e => ⟨.error e, 3, [1, 2]⟩
          | .transient e2 => ⟨.error e2, 3, [1, 2]⟩ := by
  rcases h0 : classifyOpenAI (oc 0) with v0 | e0 | e0
  · simp [checkBatchStatusRun, MAX_RETRIES, INITIAL_RETRY_DELAY, retryGo, h0]
  · simp [checkBatchStatusRun, MAX_RETRIES, INITIAL_RETRY_DELAY, retryGo, h0]
  · rcases h1 : classifyOpenAI (oc 1) with v1 | e1 | e1
    · simp [checkBatchStatusRun, MAX_RETRIES, INITIAL_RETRY_DELAY, MAX_RETRY_DELAY,
        retryGo, h0, h1]
    · simp [checkBatchStatusRun, MAX_RETRIES, INITIAL_RETRY_DELAY, MAX_RETRY_DELAY,
        retryGo, h0, h1]
    · rcases h2 : classifyOpenAI (oc 2) with v2 | e2 | e2 <;>
        simp [checkBatchStatusRun, MAX_RETRIES, INITIAL_RETRY_DELAY, MAX_RETRY_DELAY,
          retryGo, h0, h1, h2]

/-- Full unfolding of the Keboola retry loop over its (at most three)
attempts. -/
lemma triggerJobRun_eq (kc : Nat → KeboolaOutcome) :
    triggerJobRun kc =
      match classifyKeboola (kc 0) with
      | .ok v => ⟨.ok v, 1, []⟩
      | .permanent e => ⟨.error e, 1, []⟩
      | .transient _ =>
        match classifyKeboola (kc 1) with
        | .ok v => ⟨.ok v, 2, [1]⟩
        | .permanent e => ⟨.error e, 2, [1]⟩
        | .transient _ =>
          match classifyKeboola (kc 2) with
          | .ok v => ⟨.ok v, 3, [1, 2]⟩
          | .permanent e => ⟨.error e, 3, [1, 2]⟩
          | .transient e2 => ⟨.error e2, 3, [1, 2]⟩ := by
  rcases h0 : classifyKeboola (kc 0) with v0 | e0 | e0
  · simp [triggerJobRun, MAX_RETRIES, INITIAL_RETRY_DELAY, retryGo, h0]
  · simp [triggerJobRun, MAX_RETRIES, INITIAL_RETRY_DELAY, retryGo, h0]
  · rcases h1 : classifyKeboola (kc 1) with v1 | e1 | e1
    · simp [triggerJobRun, MAX_RETRIES, INITIAL_RETRY_DELAY, MAX_RETRY_DELAY,
        retryGo, h0, h1]
    · simp [triggerJobRun, MAX_RETRIES, INITIAL_RETRY_DELAY, MAX_RETRY_DELAY,
        retryGo, h0, h1]
    · rcases h2 : classifyKeboola (kc 2) with v2 | e2 | e2 <;>
        simp [triggerJobRun, MAX_RETRIES, INITIAL_RETRY_DELAY, MAX_RETRY_DELAY,
          retryGo, h0, h1, h2]

lemma retryRun_bounds {ε α : Type} (step : Nat → AttemptStep ε α) (fb : ε) :
    1 ≤ (retryGo step fb 0 MAX_RETRIES INITIAL_RETRY_DELAY [] none).attempts ∧
    (retryGo step fb 0 MAX_RETRIES INITIAL_RETRY_DELAY [] none).attempts ≤ MAX_RETRIES := by
  rcases h0 : step 0 with v0 | e0 | e0
  · simp [MAX_RETRIES, INITIAL_RETRY_DELAY, retryGo, h0]
  · simp [MAX_RETRIES, INITIAL_RETRY_DELAY, retryGo, h0]
  · rcases h1 : step 1 with v1 | e1 | e1
    · simp [MAX_RETRIES, INITIAL_RETRY_DELAY, MAX_RETRY_DELAY, retryGo, h0, h1]
    · simp [MAX_RETRIES, INITIAL_RETRY_DELAY, MAX_RETRY_DELAY, retryGo, h0, h1]
    · rcases h2 : step 2 with v2 | e2 | e2 <;>
        simp [MAX_RETRIES, INITIAL_RETRY_DELAY, MAX_RETRY_DELAY, retryGo, h0, h1, h2]

lemma retryRun_sleeps {ε α : Type} (step : Nat → AttemptStep ε α) (fb : ε) :
    (retryGo step fb 0 MAX_RETRIES INITIAL_RETRY_DELAY [] none).sleeps =
      (List.range
        ((retryGo step fb 0 MAX_RETRIES INITIAL_RETRY_DELAY [] none).attempts - 1)).map
        (fun k => min ((2 : Int) ^ k) MAX_RETRY_DELAY) := by
  rcases h0 : step 0 with v0 | e0 | e0
  · simp [MAX_RETRIES, INITIAL_RETRY_DELAY, retryGo, h0]
  · simp [MAX_RETRIES, INITIAL_RETRY_DELAY, retryGo, h0]
  · rcases h1 : step 1 with v1 | e1 | e1
    · simp [MAX_RETRIES, INITIAL_RETRY_DELAY, MAX_RETRY_DELAY, retryGo, h0, h1]
      decide
    · simp [MAX_RETRIES, INITIAL_RETRY_DELAY, MAX_RETRY_DELAY, retryGo, h0, h1]
      decide
    · rcases h2 : step 2 with v2 | e2 | e2 <;>
        simp [MAX_RETRIES, INITIAL_RETRY_DELAY, MAX_RETRY_DELAY, retryGo, h0, h1, h2] <;>
        decide

lemma retryRun_permanent {ε α : Type} (step : Nat → AttemptStep ε α) (fb : ε)
    (i : Nat) (hi : i < MAX_RETRIES)
    (htr : ∀ k, k < i → ∃ e, step k = .transient e) (e : ε)
    (hp : step i = .permanent e) :
    (retryGo step fb 0 MAX_RETRIES INITIAL_RETRY_DELAY [] none).result = .error e ∧
    (retryGo step fb 0 MAX_RETRIES INITIAL_RETRY_DELAY [] none).attempts = i + 1 := by
  match i with
  | 0 => simp [MAX_RETRIES, INITIAL_RETRY_DELAY, retryGo, hp]
  | 1 =>
    obtain ⟨e0, h0⟩ := htr 0 (by omega)
    simp [MAX_RETRIES, INITIAL_RETRY_DELAY, MAX_RETRY_DELAY, retryGo, h0, hp]
  | 2 =>
    obtain ⟨e0, h0⟩ := htr 0 (by omega)
    obtain ⟨e1, h1⟩ := htr 1 (by omega)
    simp [MAX_RETRIES, INITIAL_RETRY_DELAY, MAX_RETRY_DELAY, retryGo, h0, h1, hp]
  | n + 3 => exact absurd hi (by simp [MAX_RETRIES])

lemma retryRun_exhausted {ε α : Type} (step : Nat → AttemptStep ε α) (fb : ε)
    (e0 e1 e2 : ε) (h0 : step 0 = .transient e0) (h1 : step 1 = .transient e1)
    (h2 : step 2 = .transient e2) :
    (retryGo step fb 0 MAX_RETRIES INITIAL_RETRY_DELAY [] none).result = .error e2 ∧
    (retryGo step fb 0 MAX_RETRIES INITIAL_RETRY_DELAY [] none).attempts = MAX_RETRIES := by
  simp [MAX_RETRIES, INITIAL_RETRY_DELAY, MAX_RETRY_DELAY, retryGo, h0, h1, h2]

lemma retryRun_success {ε α : Type} (step : Nat → AttemptStep ε α) (fb : ε)
    (i : Nat) (hi : i < MAX_RETRIES)
    (htr : ∀ k, k < i → ∃ e, step k = .transient e) (v : α)
    (hs : step i = .ok v) :
    (retryGo step fb 0 MAX_RETRIES INITIAL_RETRY_DELAY [] none).result = .ok v ∧
    (retryGo step fb 0 MAX_RETRIES INITIAL_RETRY_DELAY [] none).attempts = i + 1 := by
  match i with
  | 0 => simp [MAX_RETRIES, INITIAL_RETRY_DELAY, retryGo, hs]
  | 1 =>
    obtain ⟨e0, h0⟩ := htr 0 (by omega)
    simp [MAX_RETRIES, INITIAL_RETRY_DELAY, MAX_RETRY_DELAY, retryGo, h0, hs]
  | 2 =>
    obtain ⟨e0, h0⟩ := htr 0 (by omega)
    obtain ⟨e1, h1⟩ := htr 1 (by omega)
    simp [MAX_RETRIES, INITIAL_RETRY_DELAY, MAX_RETRY_DELAY, retryGo, h0, h1, hs]
  | n + 3 => exact absurd hi (by simp [MAX_RETRIES])

/-! ## Concrete fixtures used by witnesses and counterexamples -/

/-- A batch row with the given id, status and completion time. -/
def mkBatch (bid st : String) (ca : Option Time) : JobBatch :=
  ⟨1, 1, bid, st, 0, ca⟩

/-- A job row (id 1, poll interval 120 s) with the given status,
`next_check_at` and batches. -/
def mkJob (st : String) (nca : Option Time) (bs : List JobBatch) : PollingJob :=
  ⟨1, "job", some 1, some 2, "https://connection.keboola.com",
   "kds-team.app-custom-python", "cfg-1", 120, st, none, nca, 0, none, bs⟩

/-! ## Claims -/

/-- C1: the claim states the Keboola Action Trigger is invoked at most
once per job across its lifetime, the recovery path (a job picked up
with zero non-terminal batches) included.  The code violates this: on
the recovery path `_process_single_job` calls
`_trigger_keboola_with_results` and returns without changing the job's
status or schedule, so the still-active, still-due job is selected again
on the next loop iteration and triggers again.  Concretely, a job that
is active with one already-completed batch and a null `next_check_at`
fires the trigger in two consecutive iterations (and is left unchanged
both times). -/
theorem c1_recovery_path_double_trigger :
    allBatchesTerminal (mkJob "active" none [mkBatch "batch_a" "completed" (some 0)]) =
        true ∧
    (pollIterationOnJob 0 (fun _ => none) true
        (mkJob "active" none [mkBatch "batch_a" "completed" (some 0)])).2 = 1 ∧
    (pollIterationOnJob 0 (fun _ => none) true
        (mkJob "active" none [mkBatch "batch_a" "completed" (some 0)])).1 =
      mkJob "active" none [mkBatch "batch_a" "completed" (some 0)] ∧
    (pollIterationOnJob 1 (fun _ => none) true
        (pollIterationOnJob 0 (fun _ => none) true
          (mkJob "active" none [mkBatch "batch_a" "completed" (some 0)])).1).2 = 1 := by
  decide

/-- C3: the claim states that after an unrecoverable trigger failure the
job's persisted final state has status failed.  On the normal path the
code violates this: `_trigger_keboola_with_results` catches the failure
and writes status failed, but `_process_single_job` then unconditionally
overwrites the row with completed / completed_with_failures.  Concretely,
a job whose single batch check returns completed and whose trigger call
fails ends with status completed (not failed). -/
theorem c3_trigger_failure_overwritten_status :
    (processSingleJob 100 (fun _ => some "completed") false
        (mkJob "active" none [mkBatch "batch_x" "in_progress" none])).1.status =
      "completed" ∧
    (processSingleJob 100 (fun _ => some "completed") false
        (mkJob "active" none [mkBatch "batch_x" "in_progress" none])).1.status ≠
      "failed" ∧
    (processSingleJob 100 (fun _ => some "completed") false
        (mkJob "active" none [mkBatch "batch_x" "in_progress" none])).1.completed_at =
      some 100 := by
  decide

/-- C9: for every job whose batch list is empty, `all_batches_terminal`
is `False` (not vacuously true), and `_process_single_job` neither
invokes the Action Trigger nor changes the job. -/
theorem c9_empty_batches_no_trigger (now : Time) (env : String → Option String)
    (trigOk : Bool) (j : PollingJob) (h : j.batches = []) :
    allBatchesTerminal j = false ∧
    processSingleJob now env trigOk j = (j, 0) := by
  have hterm : allBatchesTerminal j = false := by
    unfold allBatchesTerminal
    simp [h]
  refine ⟨hterm, ?_⟩
  unfold processSingleJob
  simp [h, hterm]

/-- Witness for C9 at a concrete zero-batch job. -/
theorem c9_empty_batches_no_trigger_witness :
    (mkJob "active" none []).batches = [] ∧
    allBatchesTerminal (mkJob "active" none []) = false ∧
    processSingleJob 0 (fun _ => some "completed") true (mkJob "active" none []) =
      (mkJob "active" none [], 0) := by
  refine ⟨by decide, ?_⟩
  have h := c9_empty_batches_no_trigger 0 (fun _ => some "completed") true
    (mkJob "active" none []) (by decide)
  exact h

/-- An environment in which every batch status check returns failed. -/
def envAllFailed : String → Option String := fun _ => some "failed"

/-- A job with two in-progress batches. -/
def jobTwoInProgress : PollingJob :=
  mkJob "active" none
    [mkBatch "batch_a" "in_progress" none, mkBatch "batch_b" "in_progress" none]

/-- C2: when the engine finalizes a job whose batches are all terminal
after this iteration's checks, the final status is driven by the failed
count alone: `completed_with_failures` whenever some batch is failed /
cancelled / expired (even if no batch completed), and `completed` when
none is. -/
theorem c2_failure_classification (now : Time) (env : String → Option String)
    (trigOk : Bool) (j : PollingJob)
    (hcheck : (j.batches.filter (fun b => !(isTerminalStatus b.status))).isEmpty = false)
    (hterm : allBatchesTerminal
        { j with batches := updatedBatches now env j.batches } = true) :
    ((failedBatches { j with batches := updatedBatches now env j.batches }).length ≠ 0 →
       (processSingleJob now env trigOk j).1.status = "completed_with_failures") ∧
    ((failedBatches { j with batches := updatedBatches now env j.batches }).length = 0 →
       (processSingleJob now env trigOk j).1.status = "completed") := by
  have key : (processSingleJob now env trigOk j).1.status =
      (if (failedBatches { j with batches := updatedBatches now env j.batches }).isEmpty
       then "completed" else "completed_with_failures") := by
    unfold processSingleJob
    cases htrig : trigOk <;> simp [hcheck, hterm, markTriggerFailed]
  constructor
  · intro hne
    rw [key]
    by_cases hfe :
        (failedBatches { j with batches := updatedBatches now env j.batches }).isEmpty = true
    · rw [List.isEmpty_iff] at hfe
      rw [hfe] at hne
      simp at hne
    · simp [hfe]
  · intro hz
    rw [key]
    rw [List.length_eq_zero] at hz
    simp [hz]

/-- Witness for C2: both batches of a two-batch job come back failed,
so the job finalizes as completed_with_failures with zero completions. -/
theorem c2_failure_classification_witness :
    (failedBatches
        { jobTwoInProgress with
            batches := updatedBatches 50 envAllFailed jobTwoInProgress.batches }).length ≠ 0 ∧
    (completedBatches
        { jobTwoInProgress with
            batches := updatedBatches 50 envAllFailed jobTwoInProgress.batches }).length = 0 ∧
    (processSingleJob 50 envAllFailed true jobTwoInProgress).1.status =
      "completed_with_failures" :=
  ⟨by decide, by decide,
   (c2_failure_classification 50 envAllFailed true jobTwoInProgress
      (by decide) (by decide)).1 (by decide)⟩

/-- C4 counterexample: `update_job_status` rejects
`completed_with_failures` with a Validation error (the claim says it is
accepted), and an explicitly passed `completed_at` of 99 overwrites an
existing `completed_at` of 5 (the claim says a non-null `completed_at`
is never overwritten). -/
theorem c4_counterexample :
    updateJobStatus [mkJob "active" none []] 1 "completed_with_failures" none 50 =
      .error .validation ∧
    updateJobStatus [{ mkJob "active" none [] with completed_at := some 5 }] 1
        "completed" (some 99) 50 =
      .ok [{ mkJob "completed" none [] with completed_at := some 99 }] := by
  decide

/-- C4 (amended): `update_job_status` fails with Validation exactly when
the status is outside `{active, paused, completed, failed}` (in
particular `completed_with_failures` is rejected); with a valid status
it fails with NotFound exactly when the job id is unknown; on success
every other job row is unchanged, and the target row's `completed_at`
becomes: the explicitly passed value (written unconditionally) when one
is given, otherwise now when the new status is completed or failed and
`completed_at` was null, otherwise its old value (never overwritten). -/
theorem c4_update_job_status_amended (db : List PollingJob) (job_id : Nat)
    (status : String) (completed_at : Option Time) (now : Time) :
    (updateJobStatus db job_id status completed_at now = .error .validation ↔
       validStatuses.contains status = false) ∧
    validStatuses.contains "completed_with_failures" = false ∧
    (updateJobStatus db job_id status completed_at now = .error .notFound ↔
       validStatuses.contains status = true ∧
         db.find? (fun j => j.id == job_id) = none) ∧
    (∀ db2, updateJobStatus db job_id status completed_at now = .ok db2 →
       (∀ j, j ∈ db → (j.id == job_id) = false → j ∈ db2) ∧
       (∀ j, j ∈ db → (j.id == job_id) = true →
          { j with
              status := status,
              completed_at :=
                match completed_at with
                | some t => some t
                | none =>
                  if (status == "completed" || status == "failed") &&
                      j.completed_at == none
                  then some now else j.completed_at } ∈ db2)) := by
  refine ⟨?_, by decide, ?_, ?_⟩
  · by_cases hv : validStatuses.contains status = true
    · have hvm : status ∈ validStatuses := by simpa using hv
      cases hf : db.find? (fun j => j.id == job_id) <;>
        simp [updateJobStatus, hvm, hv, hf]
    · have hv2 : validStatuses.contains status = false := by simpa using hv
      unfold updateJobStatus
      rw [hv2]
      simp [hv2]
  · by_cases hv : validStatuses.contains status = true
    · have hvm : status ∈ validStatuses := by simpa using hv
      cases hf : db.find? (fun j => j.id == job_id) <;>
        simp [updateJobStatus, hvm, hv, hf]
    · have hv2 : validStatuses.contains status = false := by simpa using hv
      unfold updateJobStatus
      rw [hv2]
      simp [hv2]
  · intro db2 hok
    by_cases hv : validStatuses.contains status = true
    · have hvm : status ∈ validStatuses := by simpa using hv
      cases hf : db.find? (fun j => j.id == job_id) with
      | none => simp [updateJobStatus, hvm, hf] at hok
      | some j0 =>
        simp only [updateJobStatus, hv, Bool.not_true, Bool.false_eq_true, if_false,
          hf, Except.ok.injEq] at hok
        subst hok
        constructor
        · intro j hj hne
          have hfix :
              (if j.id == job_id then
                 let j1 := { j with status := status }
                 let j2 :=
                   match completed_at with
                   | some t => { j1 with completed_at := some t }
                   | none => j1
                 if (status == "completed" || status == "failed") &&
                     j2.completed_at == none then
                   { j2 with completed_at := some now }
                 else j2
               else j) = j := by
            simp [hne]
          exact hfix ▸ List.mem_map_of_mem _ hj
        · intro j hj heq
          refine List.mem_map.mpr ⟨j, hj, ?_⟩
          cases hca : completed_at with
          | some t => simp [heq, hca]
          | none =>
            by_cases hst : ((status == "completed" || status == "failed") &&
                j.completed_at == none) = true
            · simp [heq, hca, hst]
            · have hst2 : ((status == "completed" || status == "failed") &&
                  j.completed_at == none) = false := by simpa using hst
              simp [heq, hca, hst2]
    · have hv2 : validStatuses.contains status = false := by simpa using hv
      unfold updateJobStatus at hok
      rw [hv2] at hok
      simp at hok

/-- Witness for C4 (amended): a bogus status yields a Validation error. -/
theorem c4_update_job_status_amended_witness :
    validStatuses.contains "bogus" = false ∧
    updateJobStatus [mkJob "active" none []] 1 "bogus" none 50 = .error .validation :=
  ⟨by decide,
   ((c4_update_job_status_amended [mkJob "active" none []] 1 "bogus" none 50).1).mpr
     (by decide)⟩

/-- C7: `schedule_next_check` fails with NotFound when the job id is
unknown, fails with Validation when the resolved interval is `≤ 0`, and
otherwise sets exactly `last_check_at = now` and
`next_check_at = now + interval` on the target row (all other fields and
all other rows unchanged) and returns the new `next_check_at`. -/
theorem c7_schedule_next_check (db : List PollingJob) (job_id : Nat)
    (override : Option Int) (now : Time) :
    (db.find? (fun j => j.id == job_id) = none →
       scheduleNextCheck db job_id override now = .error .notFound) ∧
    (∀ j0, db.find? (fun j => j.id == job_id) = some j0 →
       resolvedInterval override j0 ≤ 0 →
       scheduleNextCheck db job_id override now = .error .validation) ∧
    (∀ j0, db.find? (fun j => j.id == job_id) = some j0 →
       0 < resolvedInterval override j0 →
       scheduleNextCheck db job_id override now =
         .ok (db.map (fun j =>
             if j.id == job_id then
               { j with
                   last_check_at := some now,
                   next_check_at := some (now + resolvedInterval override j0) }
             else j),
           now + resolvedInterval override j0)) := by
  refine ⟨?_, ?_, ?_⟩
  · intro hf
    simp [scheduleNextCheck, hf]
  · intro j0 hf hle
    unfold scheduleNextCheck
    rw [hf]
    simp [hle]
  · intro j0 hf hpos
    unfold scheduleNextCheck
    rw [hf]
    simp [not_le.mpr hpos]

/-- Witness for C7: the ok branch at a one-job database. -/
theorem c7_schedule_next_check_witness :
    [mkJob "active" none []].find? (fun j => j.id == 1) = some (mkJob "active" none []) ∧
    (0 : Int) < resolvedInterval none (mkJob "active" none []) ∧
    scheduleNextCheck [mkJob "active" none []] 1 none 10 =
      .ok ([{ mkJob "active" none [] with
                last_check_at := some 10, next_check_at := some 130 }], 130) := by
  refine ⟨by decide, by decide, ?_⟩
  have h := (c7_schedule_next_check [mkJob "active" none []] 1 none 10).2.2
    (mkJob "active" none []) (by decide) (by decide)
  exact h.trans (by decide)

/-- C10: an interval override of exactly 0 is treated as absent: for an
existing job with a positive configured interval the call succeeds and
schedules `now + poll_interval_seconds`. -/
theorem c10_zero_override_uses_configured (db : List PollingJob) (job_id : Nat)
    (now : Time) (j0 : PollingJob)
    (hf : db.find? (fun j => j.id == job_id) = some j0)
    (hpos : 0 < j0.poll_interval_seconds) :
    resolvedInterval (some 0) j0 = j0.poll_interval_seconds ∧
    scheduleNextCheck db job_id (some 0) now =
      .ok (db.map (fun j =>
          if j.id == job_id then
            { j with
                last_check_at := some now,
                next_check_at := some (now + j0.poll_interval_seconds) }
          else j),
        now + j0.poll_interval_seconds) := by
  have hres : resolvedInterval (some 0) j0 = j0.poll_interval_seconds := by
    simp [resolvedInterval]
  refine ⟨hres, ?_⟩
  unfold scheduleNextCheck
  rw [hf]
  simp [hres, not_le.mpr hpos]

/-- Witness for C10: override 0 on a job with interval 120 schedules
`now + 120` and does not fail. -/
theorem c10_zero_override_uses_configured_witness :
    [mkJob "active" none []].find? (fun j => j.id == 1) = some (mkJob "active" none []) ∧
    (0 : Int) < (mkJob "active" none []).poll_interval_seconds ∧
    scheduleNextCheck [mkJob "active" none []] 1 (some 0) 10 =
      .ok ([{ mkJob "active" none [] with
                last_check_at := some 10, next_check_at := some 130 }], 130) := by
  refine ⟨by decide, by decide, ?_⟩
  have h := (c10_zero_override_uses_configured [mkJob "active" none []] 1 10
    (mkJob "active" none []) (by decide) (by decide)).2
  exact h.trans (by decide)

/-- C8 counterexample: a job in the terminal status
completed_with_failures whose `completed_at` is far older than the
30-day cutoff is not deleted by `cleanup_old_jobs` (the claim says every
old terminal job is deleted): the row survives and the returned count is
0. -/
theorem c8_counterexample :
    ({ mkJob "completed_with_failures" none [] with
        completed_at := some 0 }).completed_at = some 0 ∧
    (0 : Int) < 10000000 - 30 * 86400 ∧
    cleanupOldJobs
        [{ mkJob "completed_with_failures" none [] with completed_at := some 0 }]
        30 10000000 =
      ([{ mkJob "completed_with_failures" none [] with completed_at := some 0 }], 0) := by
  decide

/-- C8 (amended): `cleanup_old_jobs` deletes exactly the jobs with
status completed or failed (not completed_with_failures) whose non-null
`completed_at` is older than `now - days` — surviving rows are exactly
the non-matching ones, a completed_with_failures row is always retained,
and the returned count plus the surviving count is the original count. -/
theorem c8_cleanup_old_jobs_amended (db : List PollingJob) (days_old : Int)
    (now : Time) :
    (∀ j, j ∈ db →
       (j ∈ (cleanupOldJobs db days_old now).1 ↔
         purgedByCleanup (now - days_old * 86400) j = false)) ∧
    (∀ j, purgedByCleanup (now - days_old * 86400) j = true →
       (j.status = "completed" ∨ j.status = "failed") ∧
       ∃ t, j.completed_at = some t ∧ t < now - days_old * 86400) ∧
    (∀ j, j ∈ db → j.status = "completed_with_failures" →
       j ∈ (cleanupOldJobs db days_old now).1) ∧
    (cleanupOldJobs db days_old now).2 + (cleanupOldJobs db days_old now).1.length =
      db.length := by
  refine ⟨?_, ?_, ?_, ?_⟩
  · intro j hj
    simp [cleanupOldJobs, List.mem_filter, hj]
  · intro j hp
    unfold purgedByCleanup at hp
    cases hca : j.completed_at with
    | none => rw [hca] at hp; simp at hp
    | some t =>
      rw [hca] at hp
      simp only [Bool.and_eq_true, Bool.or_eq_true, beq_iff_eq,
        decide_eq_true_eq] at hp
      exact ⟨hp.1, t, rfl, hp.2⟩
  · intro j hj hst
    have hpf : purgedByCleanup (now - days_old * 86400) j = false := by
      unfold purgedByCleanup
      rw [hst]
      simp
    simp [cleanupOldJobs, List.mem_filter, hj, hpf]
  · have h := List.length_eq_length_filter_add
      (l := db) (purgedByCleanup (now - days_old * 86400))
    simp [cleanupOldJobs]
    omega

/-- Witness for C8 (amended) at a two-job database: the old completed
job is counted as removed, the completed_with_failures job survives. -/
theorem c8_cleanup_old_jobs_amended_witness :
    purgedByCleanup (10000000 - 30 * 86400)
      { mkJob "completed" none [] with completed_at := some 0 } = true ∧
    ({ mkJob "completed" none [] with completed_at := some 0 }.status = "completed" ∨
     { mkJob "completed" none [] with completed_at := some 0 }.status = "failed") ∧
    { mkJob "completed_with_failures" none [] with completed_at := some 0 } ∈
      (cleanupOldJobs
        [{ mkJob "completed" none [] with completed_at := some 0 },
         { mkJob "completed_with_failures" none [] with completed_at := some 0 }]
        30 10000000).1 :=
  ⟨by decide,
   ((c8_cleanup_old_jobs_amended
      [{ mkJob "completed" none [] with completed_at := some 0 },
       { mkJob "completed_with_failures" none [] with completed_at := some 0 }]
      30 10000000).2.1
      { mkJob "completed" none [] with completed_at := some 0 } (by decide)).1,
   (c8_cleanup_old_jobs_amended
      [{ mkJob "completed" none [] with completed_at := some 0 },
       { mkJob "completed_with_failures" none [] with completed_at := some 0 }]
      30 10000000).2.2.1
      { mkJob "completed_with_failures" none [] with completed_at := some 0 }
      (by simp) rfl⟩

/-- C6 counterexample: with a limit of 0 (falsy in Python, so `if
limit:` skips the cap) `get_jobs_to_check` returns more than 0 jobs —
the claim's "at most `limit` jobs" fails at limit 0. -/
theorem c6_counterexample :
    (getJobsToCheck [mkJob "active" none []] (some 0) 0).length = 1 ∧
    ¬((getJobsToCheck [mkJob "active" none []] (some 0) 0).length ≤ 0) := by
  decide

/-- C6 (amended): for every positive limit, `get_jobs_to_check` returns
at most `limit` jobs, each an active job of the database whose
`next_check_at` is null or not after now, ordered by `next_check_at`
ascending with nulls first; a job in a terminal status never appears;
and whenever the eligible jobs fit within the limit, every eligible job
is returned (the query reads rows and writes nothing). -/
theorem c6_jobs_due_for_check_amended (db : List PollingJob) (now : Time)
    (l : Nat) (hl : 1 ≤ l) :
    (getJobsToCheck db (some l) now).length ≤ l ∧
    (∀ j, j ∈ getJobsToCheck db (some l) now → j ∈ db ∧ jobDue now j = true) ∧
    List.Sorted nextCheckLe (getJobsToCheck db (some l) now) ∧
    (∀ j, j ∈ db →
       (j.status = "completed" ∨ j.status = "completed_with_failures" ∨
        j.status = "failed") →
       j ∉ getJobsToCheck db (some l) now) ∧
    ((db.filter (jobDue now)).length ≤ l →
       ∀ j, j ∈ db → jobDue now j = true → j ∈ getJobsToCheck db (some l) now) := by
  have hne : (l != 0) = true := by simp; omega
  have hr : getJobsToCheck db (some l) now =
      ((db.filter (jobDue now)).insertionSort nextCheckLe).take l := by
    simp [getJobsToCheck, hne]
  have hperm : ((db.filter (jobDue now)).insertionSort nextCheckLe).Perm
      (db.filter (jobDue now)) := List.perm_insertionSort _ _
  have hsorted : List.Sorted nextCheckLe
      ((db.filter (jobDue now)).insertionSort nextCheckLe) :=
    List.sorted_insertionSort _ _
  refine ⟨?_, ?_, ?_, ?_, ?_⟩
  · rw [hr]
    exact List.length_take_le _ _
  · intro j hj
    rw [hr] at hj
    have hjs := (List.take_sublist _ _).subset hj
    have hjf := hperm.mem_iff.mp hjs
    simpa using List.mem_filter.mp hjf
  · rw [hr]
    exact hsorted.sublist (List.take_sublist _ _)
  · intro j hj hterm hmem
    rw [hr] at hmem
    have hjs := (List.take_sublist _ _).subset hmem
    have hjf := hperm.mem_iff.mp hjs
    have hd : jobDue now j = true := (List.mem_filter.mp hjf).2
    unfold jobDue at hd
    rcases hterm with h | h | h <;> rw [h] at hd <;> simp at hd
  · intro hlen j hj hd
    rw [hr]
    have hslen : ((db.filter (jobDue now)).insertionSort nextCheckLe).length =
        (db.filter (jobDue now)).length := hperm.length_eq
    rw [List.take_of_length_le (by omega)]
    exact hperm.mem_iff.mpr (List.mem_filter.mpr ⟨hj, hd⟩)

/-- Witness for C6 (amended): a database with one due active job and
one completed job, limit 1. -/
theorem c6_jobs_due_for_check_amended_witness :
    (1 : Nat) ≤ 1 ∧
    (getJobsToCheck [mkJob "active" none [], mkJob "completed" none []]
        (some 1) 0).length ≤ 1 ∧
    mkJob "completed" none [] ∉
      getJobsToCheck [mkJob "active" none [], mkJob "completed" none []] (some 1) 0 :=
  ⟨by decide,
   (c6_jobs_due_for_check_amended
      [mkJob "active" none [], mkJob "completed" none []] 0 1 (by decide)).1,
   (c6_jobs_due_for_check_amended
      [mkJob "active" none [], mkJob "completed" none []] 0 1 (by decide)).2.2.2.1
     (mkJob "completed" none []) (by decide) (Or.inl rfl)⟩

lemma openAIRetryPolicySpec (oc : Nat → OpenAIOutcome) :
    (1 ≤ (checkBatchStatusRun oc).attempts ∧
     (checkBatchStatusRun oc).attempts ≤ MAX_RETRIES) ∧
    (checkBatchStatusRun oc).sleeps =
      (List.range ((checkBatchStatusRun oc).attempts - 1)).map
        (fun k => min ((2 : Int) ^ k) MAX_RETRY_DELAY) ∧
    (∀ i, i < MAX_RETRIES → (∀ k, k < i → isTransientOpenAI (oc k) = true) →
       isPermanentOpenAI (oc i) = true →
       (checkBatchStatusRun oc).result = .error (oc i) ∧
       (checkBatchStatusRun oc).attempts = i + 1) ∧
    ((∀ k, k < MAX_RETRIES → isTransientOpenAI (oc k) = true) →
       (checkBatchStatusRun oc).result = .error (oc 2) ∧
       (checkBatchStatusRun oc).attempts = MAX_RETRIES) ∧
    (∀ i s, i < MAX_RETRIES → (∀ k, k < i → isTransientOpenAI (oc k) = true) →
       oc i = .success s →
       (checkBatchStatusRun oc).result = .ok s ∧
       (checkBatchStatusRun oc).attempts = i + 1) := by
  refine ⟨?_, ?_, ?_, ?_, ?_⟩
  · exact retryRun_bounds _ _
  · exact retryRun_sleeps _ _
  · intro i hi htr hp
    exact retryRun_permanent _ _ i hi
      (fun k hk => ⟨oc k, classifyOpenAI_of_transient (oc k) (htr k hk)⟩) (oc i)
      (classifyOpenAI_of_permanent (oc i) hp)
  · intro htr
    exact retryRun_exhausted _ _ (oc 0) (oc 1) (oc 2)
      (classifyOpenAI_of_transient _ (htr 0 (by simp [MAX_RETRIES])))
      (classifyOpenAI_of_transient _ (htr 1 (by simp [MAX_RETRIES])))
      (classifyOpenAI_of_transient _ (htr 2 (by simp [MAX_RETRIES])))
  · intro i s hi htr hs
    refine retryRun_success _ _ i hi
      (fun k hk => ⟨oc k, classifyOpenAI_of_transient (oc k) (htr k hk)⟩) s ?_
    simp [hs, classifyOpenAI]

lemma keboolaRetryPolicySpec (kc : Nat → KeboolaOutcome) :
    (1 ≤ (triggerJobRun kc).attempts ∧
     (triggerJobRun kc).attempts ≤ MAX_RETRIES) ∧
    (triggerJobRun kc).sleeps =
      (List.range ((triggerJobRun kc).attempts - 1)).map
        (fun k => min ((2 : Int) ^ k) MAX_RETRY_DELAY) ∧
    (∀ i, i < MAX_RETRIES → (∀ k, k < i → isTransientKeboola (kc k) = true) →
       isPermanentKeboola (kc i) = true →
       (triggerJobRun kc).result = .error (kc i) ∧
       (triggerJobRun kc).attempts = i + 1) ∧
    ((∀ k, k < MAX_RETRIES → isTransientKeboola (kc k) = true) →
       (triggerJobRun kc).result = .error (kc 2) ∧
       (triggerJobRun kc).attempts = MAX_RETRIES) ∧
    (∀ i s, i < MAX_RETRIES → (∀ k, k < i → isTransientKeboola (kc k) = true) →
       kc i = .success s →
       (triggerJobRun kc).result = .ok s ∧
       (triggerJobRun kc).attempts = i + 1) := by
  refine ⟨?_, ?_, ?_, ?_, ?_⟩
  · exact retryRun_bounds _ _
  · exact retryRun_sleeps _ _
  · intro i hi htr hp
    exact retryRun_permanent _ _ i hi
      (fun k hk => ⟨kc k, classifyKeboola_of_transient (kc k) (htr k hk)⟩) (kc i)
      (classifyKeboola_of_permanent (kc i) hp)
  · intro htr
    exact retryRun_exhausted _ _ (kc 0) (kc 1) (kc 2)
      (classifyKeboola_of_transient _ (htr 0 (by simp [MAX_RETRIES])))
      (classifyKeboola_of_transient _ (htr 1 (by simp [MAX_RETRIES])))
      (classifyKeboola_of_transient _ (htr 2 (by simp [MAX_RETRIES])))
  · intro i s hi htr hs
    refine retryRun_success _ _ i hi
      (fun k hk => ⟨kc k, classifyKeboola_of_transient (kc k) (htr k hk)⟩) s ?_
    simp [hs, classifyKeboola]

/-- C5: both integration clients' call wrappers make at most 3 attempts;
the sleeps between consecutive attempts follow the exponential backoff
schedule starting at 1 s, doubling, capped at 60 s; a Permanent failure
(client-side 4xx other than 429) after transient attempts aborts at that
attempt with no further retry and no further sleep; an all-Transient run
exhausts the 3 attempts and propagates the last error; and a success
after transient attempts returns that result. -/
theorem c5_shared_retry_policy (oc : Nat → OpenAIOutcome)
    (kc : Nat → KeboolaOutcome) :
    ((1 ≤ (checkBatchStatusRun oc).attempts ∧
      (checkBatchStatusRun oc).attempts ≤ MAX_RETRIES) ∧
     (checkBatchStatusRun oc).sleeps =
       (List.range ((checkBatchStatusRun oc).attempts - 1)).map
         (fun k => min ((2 : Int) ^ k) MAX_RETRY_DELAY) ∧
     (∀ i, i < MAX_RETRIES → (∀ k, k < i → isTransientOpenAI (oc k) = true) →
        isPermanentOpenAI (oc i) = true →
        (checkBatchStatusRun oc).result = .error (oc i) ∧
        (checkBatchStatusRun oc).attempts = i + 1) ∧
     ((∀ k, k < MAX_RETRIES → isTransientOpenAI (oc k) = true) →
        (checkBatchStatusRun oc).result = .error (oc 2) ∧
        (checkBatchStatusRun oc).attempts = MAX_RETRIES) ∧
     (∀ i s, i < MAX_RETRIES → (∀ k, k < i → isTransientOpenAI (oc k) = true) →
        oc i = .success s →
        (checkBatchStatusRun oc).result = .ok s ∧
        (checkBatchStatusRun oc).attempts = i + 1)) ∧
    ((1 ≤ (triggerJobRun kc).attempts ∧
      (triggerJobRun kc).attempts ≤ MAX_RETRIES) ∧
     (triggerJobRun kc).sleeps =
       (List.range ((triggerJobRun kc).attempts - 1)).map
         (fun k => min ((2 : Int) ^ k) MAX_RETRY_DELAY) ∧
     (∀ i, i < MAX_RETRIES → (∀ k, k < i → isTransientKeboola (kc k) = true) →
        isPermanentKeboola (kc i) = true →
        (triggerJobRun kc).result = .error (kc i) ∧
        (triggerJobRun kc).attempts = i + 1) ∧
     ((∀ k, k < MAX_RETRIES → isTransientKeboola (kc k) = true) →
        (triggerJobRun kc).result = .error (kc 2) ∧
        (triggerJobRun kc).attempts = MAX_RETRIES) ∧
     (∀ i s, i < MAX_RETRIES → (∀ k, k < i → isTransientKeboola (kc k) = true) →
        kc i = .success s →
        (triggerJobRun kc).result = .ok s ∧
        (triggerJobRun kc).attempts = i + 1)) :=
  ⟨openAIRetryPolicySpec oc, keboolaRetryPolicySpec kc⟩

/-- Witness for C5: an all-rate-limited OpenAI run exhausts 3 attempts
sleeping 1 s then 2 s and propagates the rate-limit error; a Keboola 404
aborts on the first attempt with no retry. -/
theorem c5_shared_retry_policy_witness :
    (∀ k, k < MAX_RETRIES →
       isTransientOpenAI ((fun _ => OpenAIOutcome.rateLimitError) k) = true) ∧
    (checkBatchStatusRun (fun _ => OpenAIOutcome.rateLimitError)).result =
      .error .rateLimitError ∧
    (checkBatchStatusRun (fun _ => OpenAIOutcome.rateLimitError)).attempts =
      MAX_RETRIES ∧
    (checkBatchStatusRun (fun _ => OpenAIOutcome.rateLimitError)).sleeps = [1, 2] ∧
    isPermanentKeboola (KeboolaOutcome.clientResponseError 404) = true ∧
    (triggerJobRun (fun _ => KeboolaOutcome.clientResponseError 404)).result =
      .error (.clientResponseError 404) ∧
    (triggerJobRun (fun _ => KeboolaOutcome.clientResponseError 404)).attempts = 1 ∧
    (triggerJobRun (fun _ => KeboolaOutcome.clientResponseError 404)).sleeps = [] := by
  refine ⟨by decide, ?_, ?_, by decide, by decide, ?_, ?_, by decide⟩
  · exact ((c5_shared_retry_policy (fun _ => .rateLimitError)
      (fun _ => .clientResponseError 404)).1.2.2.2.1 (by decide)).1
  · exact ((c5_shared_retry_policy (fun _ => .rateLimitError)
      (fun _ => .clientResponseError 404)).1.2.2.2.1 (by decide)).2
  · exact ((c5_shared_retry_policy (fun _ => .rateLimitError)
      (fun _ => .clientResponseError 404)).2.2.2.1 0 (by decide)
      (fun k hk => absurd hk (Nat.not_lt_zero k)) (by decide)).1
  · exact ((c5_shared_retry_policy (fun _ => .rateLimitError)
      (fun _ => .clientResponseError 404)).2.2.2.1 0 (by decide)
      (fun k hk => absurd hk (Nat.not_lt_zero k)) (by decide)).2

end TeckoChecker
